import Mathlib

/-!
Verification of the `taarojek_app` device-sync core: a shallow embedding of
the SSH tunnel lifecycle manager (`device_sync/ssh_tunnel.py`) and of the
curl-based NSO device-sync client (`device_sync/nso_client_curl.py`),
together with proofs settling the specification claims about them.

External effects (process aliveness, port binding, subprocess launches,
exceptions raised by the kill primitives) are supplied by an explicit
environment record `Env`; each field corresponds to one observation site in
the Python source.  Side effects performed by the tunnel manager (killing a
process, launching the ssh forward) are recorded in an `Effect` trace that
the functions return alongside the updated record table and the result
dictionary.
-/

/-! ### Sync classifier (`nso_client_curl.py`, `check_device_sync`) -/

/-- Whitespace characters recognised by the pattern `\s` of the Python
regular expression (ASCII range, which is all the responses contain). -/
def isSpaceChar (c : Char) : Bool :=
  c = ' ' || c = '\t' || c = '\n' || c = '\r' || c = '\x0b' || c = '\x0c'

/-- The literal head of the pattern used at line 254 of
`nso_client_curl.py`: the characters of `"result":`. -/
def resultLit : List Char := ['"', 'r', 'e', 's', 'u', 'l', 't', '"', ':']

/-- Match a literal character sequence at the head of the input, returning
the remainder on success. -/
def stripLit : List Char → List Char → Option (List Char)
  | [], cs => some cs
  | _ :: _, [] => none
  | p :: ps, c :: cs => if c = p then stripLit ps cs else none

/-- Attempt the regex `"result":\s*"([^"]+)"` anchored at the head of the
input, returning the captured group. -/
def matchResultAt (cs : List Char) : Option String := do
  let rest ← stripLit resultLit cs
  let rest := rest.dropWhile isSpaceChar
  match rest with
  | '"' :: rest2 =>
    let captured := rest2.takeWhile (fun c => c ≠ '"')
    let after := rest2.dropWhile (fun c => c ≠ '"')
    match captured, after with
    | [], _ => none
    | _ :: _, '"' :: _ => some (String.mk captured)
    | _, _ => none
  | _ => none

/-- `re.search` of the pattern `"result":\s*"([^"]+)"`: try every start
position from the left and return the first capture. -/
def searchResult : List Char → Option String
  | [] => none
  | c :: rest =>
    match matchResultAt (c :: rest) with
    | some s => some s
    | none => searchResult rest

/-- Extract the `result` field from a raw check-sync response body, as the
regex search at `nso_client_curl.py:254` does. -/
def parseSyncResult (data : String) : Option String :=
  searchResult data.data

/-- The dictionary returned by `NSOClientCurl.check_device_sync`: the
`in_sync` flag plus the optional `error` / `raw_response` keys. -/
structure SyncStatus where
  in_sync : Bool
  error : Option String := none
  raw_response : Option String := none
deriving Repr, DecidableEq

/-- `NSOClientCurl.check_device_sync` (lines 229-270), abstracted over the
transport: `fetch` is the `(success, data)` pair `_curl_request` returned.
On transport failure the device is reported not-in-sync with the error
attached; on success the `result` field is parsed and the device counts as
in sync exactly when the parsed status differs from `out-of-sync`; an
unparsable response defaults to not-in-sync. -/
def check_device_sync (fetch : Bool × String) : SyncStatus :=
  match fetch with
  | (false, data) => { in_sync := false, error := some data }
  | (true, data) =>
    match parseSyncResult data with
    | some status =>
      { in_sync := status != "out-of-sync", raw_response := some (data.take 200) }
    | none => { in_sync := false, raw_response := some (data.take 200) }

/-! ### Batch checking (`nso_client_curl.py`, `_check_devices_sync`) -/

/-- Outcome of one worker's `check_device(device)` future: either the
result dictionary's `in_sync` flag, or an exception raised out of
`future.result()`. -/
inductive DevOutcome
  | ok (in_sync : Bool)
  | exc (msg : String)
deriving Repr, DecidableEq

/-- One entry of the `device_status` list. -/
structure DevEntry where
  name : String
  in_sync : Bool
deriving Repr, DecidableEq

/-- The `stats` sub-dictionary of a batch result. -/
structure BatchStats where
  total : Nat
  in_sync : Nat
  out_of_sync : Nat
deriving Repr, DecidableEq

/-- The dictionary returned by the batch routines. -/
structure BatchResult where
  success : Bool
  message : String
  stats : BatchStats
  devices : List DevEntry
deriving Repr, DecidableEq

/-- The accumulation step of the `as_completed` loop at
`nso_client_curl.py:350-365`: append one entry to `device_status` and bump
the matching counter; a future that raised is recorded with
`in_sync = False` and counted out-of-sync. -/
def collectStep (outcome : String → DevOutcome)
    (acc : List DevEntry × Nat × Nat) (d : String) : List DevEntry × Nat × Nat :=
  let (status, inc, ooc) := acc
  match outcome d with
  | .ok b => (status ++ [⟨d, b⟩], if b then inc + 1 else inc, if b then ooc else ooc + 1)
  | .exc _ => (status ++ [⟨d, false⟩], inc, ooc + 1)

/-- `NSOClientCurl._check_devices_sync` (lines 315-379).  `devices` is the
submitted device-name list; `order` is the order in which the worker
futures complete (`as_completed` yields each exactly once, in an arbitrary
order); `outcome` gives each device's individually-controlled result. -/
def _check_devices_sync (outcome : String → DevOutcome)
    (devices order : List String) : BatchResult :=
  let acc := order.foldl (collectStep outcome) ([], 0, 0)
  { success := true
    message := "Checked " ++ toString devices.length ++ " devices"
    stats := ⟨devices.length, acc.2.1, acc.2.2⟩
    devices := acc.1 }

/-- `NSOClientCurl.check_selected_devices_sync` (lines 293-313): an empty
selection is a defined failure; otherwise the names are wrapped as device
objects and handed to `_check_devices_sync`. -/
def check_selected_devices_sync (outcome : String → DevOutcome)
    (device_names order : List String) : BatchResult :=
  match device_names with
  | [] =>
    { success := false
      message := "No devices selected"
      stats := ⟨0, 0, 0⟩
      devices := [] }
  | _ :: _ => _check_devices_sync outcome device_names order

/-- The `device_status` entry produced for one device: the worker's result
dictionary, or the `in_sync = False` entry recorded when the future
raised. -/
def entryFor (outcome : String → DevOutcome) (d : String) : DevEntry :=
  match outcome d with
  | .ok b => ⟨d, b⟩
  | .exc _ => ⟨d, false⟩

/-! ### Tunnel lifecycle manager (`ssh_tunnel.py`) -/

/-- One entry of `SSHTunnelManager.active_tunnels`: the tracked process id
(`-1` when the owning process could not be identified) and the local
forward port. -/
structure TunnelRec where
  pid : Int
  local_port : Nat
deriving Repr, DecidableEq

/-- The `active_tunnels` dictionary: instance name to tunnel record. -/
abbrev Table := List (String × TunnelRec)

def lookupT (t : Table) (k : String) : Option TunnelRec :=
  (t.find? (fun p => p.1 == k)).map Prod.snd

def eraseT (t : Table) (k : String) : Table :=
  t.filter (fun p => p.1 != k)

def insertT (t : Table) (k : String) (v : TunnelRec) : Table :=
  eraseT t k ++ [(k, v)]

/-- Number of records stored for one instance key. -/
def countKey (t : Table) (k : String) : Nat :=
  (t.filter (fun p => p.1 == k)).length

/-- A process observed bound to the requested local port by
`psutil.net_connections` (or the `lsof` fallback): its pid and whether the
string `ssh` occurs in its process name. -/
structure PortProc where
  pid : Int
  nameHasSSH : Bool
deriving Repr, DecidableEq

/-- How the `subprocess.run` of the `-f`-flag launch at
`ssh_tunnel.py:226` ended: timed out, raised, or exited with a code and a
classification of its filtered stderr. -/
inductive ErrOut
  | permissionDenied
  | otherErr (msg : String)
  | tputOnly
deriving Repr, DecidableEq

inductive RunOutcome
  | timeout
  | raised (msg : String)
  | exited (code : Int) (err : ErrOut)
deriving Repr, DecidableEq

/-- The environment supplying every external observation the tunnel
manager makes; each field corresponds to one observation site in
`ssh_tunnel.py`. -/
structure Env where
  /-- `psutil`-level aliveness of a positive pid (`_is_process_running`,
  lines 555-581). -/
  pidAlive : Int → Bool
  /-- The `_is_port_in_use` observation inside the idempotency check at
  line 112. -/
  portCheckIdem : Bool
  /-- The processes currently bound to the requested local port, as seen
  by `_kill_tunnel_on_port` (lines 655-703). -/
  portProcs : List PortProc
  /-- The `_is_port_in_use` observation of the double-check at line 136. -/
  portCheckAfterKill : Bool
  /-- Whether the bind test at lines 142-147 raises `OSError`. -/
  bindTestFails : Bool
  /-- Whether `ssh -O check jump01` (lines 186-204) succeeds. -/
  controlMasterOk : Bool
  /-- Outcome of the `-f`-flag `subprocess.run` launch. -/
  runOutcome : RunOutcome
  /-- Net result of the pid discovery at lines 268-300 (cmdline match,
  port match and `lsof`, combined). -/
  foundPid : Option Int
  /-- The `Popen` launch at lines 339-348: the new pid, or the message of
  the exception it raised. -/
  popenLaunch : Except String Int
  /-- The `_is_port_in_use` observation at attempt `i` of the
  verification loop at lines 371-383. -/
  verifyObs : Nat → Bool
  /-- Whether the kill step inside `close_tunnel` raises. -/
  killRaises : Bool
  /-- Message of that exception. -/
  killErrMsg : String

/-- Side effects recorded by the tunnel manager: terminating a process,
or spawning the ssh forwarding command. -/
inductive Effect
  | kill (pid : Int)
  | launch
deriving Repr, DecidableEq

/-- The result dictionary of `create_tunnel` / `close_tunnel`; `pid` and
`local_port` are present only on the keys the source sets. -/
structure TResult where
  success : Bool
  message : String
  pid : Option Int := none
  local_port : Option Nat := none
deriving Repr, DecidableEq

/-- `_is_process_running` (lines 550-581): a pid `<= 0` is never running;
otherwise the psutil / `ps` fallback chain decides aliveness. -/
def _is_process_running (env : Env) (pid : Int) : Bool :=
  if pid ≤ 0 then false else env.pidAlive pid

/-- `_kill_process` (lines 631-653) returns immediately for `pid <= 0`,
otherwise attempts termination (all failures are swallowed). -/
def killProcessActs (pid : Int) : List Effect :=
  if pid > 0 then [Effect.kill pid] else []

/-- `_kill_tunnel_on_port` (lines 655-703): of the processes bound to the
port, terminate exactly those whose name contains `ssh`, returning the
kill count.  The source scans `psutil.net_connections` and then an `lsof`
fallback when nothing was killed; both passes apply the same
ssh-name filter to the same bound processes, so against one observation
of the port the composite is a single filtered pass. -/
def _kill_tunnel_on_port (env : Env) : Nat × List Effect :=
  let victims := env.portProcs.filter PortProc.nameHasSSH
  (victims.length, victims.map (fun p => Effect.kill p.pid))

/-- `max_attempts` of `_verify_and_finalize_tunnel` (line 366). -/
def maxAttempts : Nat := 15

/-- `_verify_and_finalize_tunnel` (lines 361-424): poll `_is_port_in_use`
up to `max_attempts` times; on the first bound observation store the
record and report success (the source also attaches a `url` key, not
modelled); if the port is never observed bound, terminate the launched
process when one was identified (`pid > 0`) and fail. -/
def _verify_and_finalize_tunnel (env : Env) (t : Table) (inst : String)
    (localPort : Nat) (pid : Int) : Table × TResult × List Effect :=
  match (List.range maxAttempts).find? (fun i => env.verifyObs i) with
  | some _ =>
    (insertT t inst ⟨pid, localPort⟩,
     { success := true
       message := "Tunnel created on port " ++ toString localPort
       pid := some pid
       local_port := some localPort },
     [])
  | none =>
    (t,
     { success := false
       message := "Tunnel failed to bind to local port. Check SSH configuration and network connectivity." },
     killProcessActs pid)

/-- `_create_tunnel_with_f_flag` (lines 214-327): run the `-f` launch; a
timeout or exception fails; a non-zero exit fails with an
authentication-specific or generic message unless stderr held only `tput`
warnings; otherwise discover the pid (falling back to `-1`) and verify. -/
def _create_tunnel_with_f_flag (env : Env) (t : Table) (inst : String)
    (localPort : Nat) (sshHost : String) : Table × TResult × List Effect :=
  match env.runOutcome with
  | .timeout =>
    (t,
     { success := false
       message := "SSH connection to " ++ sshHost ++
         " timed out. Please verify network connectivity and that " ++
         sshHost ++ " is reachable." },
     [Effect.launch])
  | .raised msg =>
    (t, { success := false, message := "Error: " ++ msg }, [Effect.launch])
  | .exited code err =>
    let failBranch : Option TResult :=
      if code = 0 then none
      else
        match err with
        | .permissionDenied =>
          some { success := false
                 message := "SSH authentication failed for jump01 (requires 2FA). Please establish an SSH connection first: ssh jump01" }
        | .otherErr m =>
          some { success := false, message := "SSH tunnel failed: " ++ m.take 200 }
        | .tputOnly => none
    match failBranch with
    | some r => (t, r, [Effect.launch])
    | none =>
      let pid : Int :=
        match env.foundPid with
        | some p => if p > 0 then p else -1
        | none => -1
      let vr := _verify_and_finalize_tunnel env t inst localPort pid
      (vr.1, vr.2.1, Effect.launch :: vr.2.2)

/-- `_create_tunnel_with_popen` (lines 329-359): spawn the forward with
`Popen` (an exception fails the call before any process exists) and
verify. -/
def _create_tunnel_with_popen (env : Env) (t : Table) (inst : String)
    (localPort : Nat) : Table × TResult × List Effect :=
  match env.popenLaunch with
  | .error msg => (t, { success := false, message := "Error: " ++ msg }, [])
  | .ok pid =>
    let vr := _verify_and_finalize_tunnel env t inst localPort pid
    (vr.1, vr.2.1, Effect.launch :: vr.2.2)

/-- Lines 128-212 of `create_tunnel`: reclaim the requested local port by
killing any ssh-named process bound to it, double-check the port (killing
again if the bind test fails), then dispatch on the jump host — `jump01`
requires a live ControlMaster connection and uses the `-f` launch, every
other host uses the `Popen` launch. -/
def create_tunnel_fresh (env : Env) (t : Table) (inst : String)
    (localPort : Nat) (sshHost : String) : Table × TResult × List Effect :=
  let acts1 := (_kill_tunnel_on_port env).2
  let acts2 :=
    if env.portCheckAfterKill then
      if env.bindTestFails then acts1 ++ (_kill_tunnel_on_port env).2 else acts1
    else acts1
  if sshHost = "jump01" then
    if env.controlMasterOk then
      let r := _create_tunnel_with_f_flag env t inst localPort sshHost
      (r.1, r.2.1, acts2 ++ r.2.2)
    else
      (t,
       { success := false
         message := "No active SSH ControlMaster connection to jump01. Please connect first: ssh jump01" },
       acts2)
  else
    let r := _create_tunnel_with_popen env t inst localPort
    (r.1, r.2.1, acts2 ++ r.2.2)

/-- `create_tunnel` (lines 89-212): if a record exists whose process is
alive, whose stored port matches and whose port is observed bound, return
success immediately; a live record with changed configuration is killed
and recreated; a dead record is dropped; then establish afresh. -/
def create_tunnel (env : Env) (t : Table) (inst : String)
    (localPort : Nat) (sshHost : String) : Table × TResult × List Effect :=
  match lookupT t inst with
  | some rec =>
    if _is_process_running env rec.pid then
      if rec.local_port == localPort && env.portCheckIdem then
        (t,
         { success := true
           message := "Tunnel to " ++ inst ++ " already active"
           pid := some rec.pid
           local_port := some rec.local_port },
         [])
      else
        let r := create_tunnel_fresh env (eraseT t inst) inst localPort sshHost
        (r.1, r.2.1, killProcessActs rec.pid ++ r.2.2)
    else
      create_tunnel_fresh env (eraseT t inst) inst localPort sshHost
  | none => create_tunnel_fresh env t inst localPort sshHost

/-- The staleness sweep of `get_active_tunnels` (lines 480-491): drop
every record whose process is not running. -/
def sweepTunnels (env : Env) (t : Table) : Table :=
  t.filter (fun p => _is_process_running env p.2.pid)

/-- `get_active_tunnels` (lines 473-494): sweep stale records, then
return a copy of the table (manager state, returned copy). -/
def get_active_tunnels (env : Env) (t : Table) : Table × Table :=
  (sweepTunnels env t, sweepTunnels env t)

/-- `close_tunnel` (lines 426-471): no record is a reported failure; with
a record, terminate the tracked process (or reclaim by port scan when the
pid is untracked) and delete the record both on the normal path and in
the exception handler. -/
def close_tunnel (env : Env) (t : Table) (inst : String) :
    Table × TResult × List Effect :=
  match lookupT t inst with
  | none =>
    (t, { success := false, message := "No active tunnel found for " ++ inst }, [])
  | some rec =>
    let acts := if rec.pid > 0 then killProcessActs rec.pid else (_kill_tunnel_on_port env).2
    if env.killRaises then
      (eraseT t inst, { success := false, message := "Error: " ++ env.killErrMsg }, acts)
    else
      (eraseT t inst, { success := true, message := "Tunnel closed successfully" }, acts)

/-! ### A reference heap, for the copy semantics of `get_active_tunnels` -/

/-- A micro-heap of tunnel tables: Python dict values addressed by
reference. `get_active_tunnels` returns `self.active_tunnels.copy()`, a
fresh dict; mutating the returned dict therefore cannot touch the
manager-owned cell.  The heap makes that aliasing distinction expressible:
returning `self.active_tunnels` itself would hand back the manager-owned
reference. -/
structure Heap where
  cells : List Table
deriving Repr

/-- Dereference: read the table a reference points to. -/
def readH (h : Heap) (r : Nat) : Table :=
  h.cells.getD r []

/-- In-place mutation of the dict a reference points to. -/
def writeH (h : Heap) (r : Nat) (tb : Table) : Heap :=
  ⟨h.cells.set r tb⟩

/-- Allocate a fresh dict holding `tb` (the `.copy()` at line 494). -/
def allocH (h : Heap) (tb : Table) : Heap × Nat :=
  (⟨h.cells ++ [tb]⟩, h.cells.length)

/-- `get_active_tunnels` at the heap level: sweep the manager-owned table
in place, then return a reference to a fresh copy of it. -/
def get_active_tunnels_heap (env : Env) (h : Heap) (r : Nat) : Heap × Nat :=
  let swept := sweepTunnels env (readH h r)
  allocH (writeH h r swept) swept

/-! ### Concrete environments used by witnesses and counterexamples -/

/-- An environment in which everything succeeds: no process bound to the
requested port, the `Popen` launch yields pid 42, and the port is
observed bound at once. -/
def envBase : Env :=
  { pidAlive := fun _ => true
    portCheckIdem := true
    portProcs := []
    portCheckAfterKill := false
    bindTestFails := false
    controlMasterOk := true
    runOutcome := .exited 0 .tputOnly
    foundPid := none
    popenLaunch := .ok 42
    verifyObs := fun _ => true
    killRaises := false
    killErrMsg := "" }

/-- The requested local port is held by the unrelated (non-ssh) process
555, which also makes the post-cleanup bind test fail. -/
def envConflict : Env :=
  { envBase with
    portProcs := [⟨555, false⟩]
    portCheckAfterKill := true
    bindTestFails := true }

/-- A `jump01` launch whose ssh process cannot be identified afterwards
(`foundPid = none`), while the port is observed bound: `create_tunnel`
stores a record with the untracked pid `-1`. -/
def envUntracked : Env :=
  { envBase with foundPid := none }

/-! ### Proofs -/

/-! ### Lemmas about the batch fold -/

lemma collectStep_entry (outcome : String → DevOutcome)
    (acc : List DevEntry × Nat × Nat) (d : String) :
    collectStep outcome acc d =
      (acc.1 ++ [entryFor outcome d],
       (if (entryFor outcome d).in_sync then acc.2.1 + 1 else acc.2.1),
       (if (entryFor outcome d).in_sync then acc.2.2 else acc.2.2 + 1)) := by
  rcases acc with ⟨s, i, o⟩
  cases h : outcome d with
  | ok b => cases b <;> simp [collectStep, entryFor, h]
  | exc m => simp [collectStep, entryFor, h]

lemma collect_fold_spec (outcome : String → DevOutcome) :
    ∀ (order : List String) (acc : List DevEntry × Nat × Nat),
      (order.foldl (collectStep outcome) acc).1
          = acc.1 ++ order.map (entryFor outcome) ∧
      (order.foldl (collectStep outcome) acc).2.1
          + (order.foldl (collectStep outcome) acc).2.2
          = acc.2.1 + acc.2.2 + order.length := by
  intro order
  induction order with
  | nil => intro acc; simp
  | cons d rest ih =>
    intro acc
    have h := ih (collectStep outcome acc d)
    rw [List.foldl_cons]
    refine ⟨?_, ?_⟩
    · rw [h.1, collectStep_entry]
      simp
    · rw [h.2, collectStep_entry]
      by_cases hb : (entryFor outcome d).in_sync <;> simp [hb] <;> omega

lemma entryFor_name (outcome : String → DevOutcome) (d : String) :
    (entryFor outcome d).name = d := by
  cases h : outcome d <;> simp [entryFor, h]

/-- C3: for every device list of size N, the batch summary has
`total = N` and `in_sync + out_of_sync = N`, and the per-device result
list holds exactly one entry per input device, for every completion order
of the worker futures and every assignment of per-device outcomes. -/
theorem checkBatch_aggregation_invariant
    (outcome : String → DevOutcome) (devices order : List String)
    (hperm : order.Perm devices) :
    (_check_devices_sync outcome devices order).stats.total = devices.length ∧
    (_check_devices_sync outcome devices order).stats.in_sync
        + (_check_devices_sync outcome devices order).stats.out_of_sync
        = devices.length ∧
    ((_check_devices_sync outcome devices order).devices.map DevEntry.name).Perm
        devices := by
  have h := collect_fold_spec outcome order ([], 0, 0)
  refine ⟨rfl, ?_, ?_⟩
  · show (order.foldl (collectStep outcome) ([], 0, 0)).2.1
        + (order.foldl (collectStep outcome) ([], 0, 0)).2.2 = devices.length
    rw [h.2]
    simpa using hperm.length_eq
  · show ((order.foldl (collectStep outcome) ([], 0, 0)).1.map DevEntry.name).Perm
        devices
    rw [h.1]
    simp only [List.nil_append, List.map_map]
    have hmap : order.map (DevEntry.name ∘ entryFor outcome) = order.map id :=
      List.map_congr_left (fun d _ => entryFor_name outcome d)
    rw [hmap, List.map_id]
    exact hperm

/-- Witness for `checkBatch_aggregation_invariant` at a concrete batch of
three devices with one failing worker and a shuffled completion order. -/
theorem checkBatch_aggregation_invariant_witness :
    (["b", "c", "a"].Perm ["a", "b", "c"]) ∧
    ((_check_devices_sync
        (fun d => if d = "b" then .exc "timeout" else .ok (d = "a"))
        ["a", "b", "c"] ["b", "c", "a"]).stats.total = 3 ∧
     (_check_devices_sync
        (fun d => if d = "b" then .exc "timeout" else .ok (d = "a"))
        ["a", "b", "c"] ["b", "c", "a"]).stats.in_sync
        + (_check_devices_sync
        (fun d => if d = "b" then .exc "timeout" else .ok (d = "a"))
        ["a", "b", "c"] ["b", "c", "a"]).stats.out_of_sync = 3 ∧
     ((_check_devices_sync
        (fun d => if d = "b" then .exc "timeout" else .ok (d = "a"))
        ["a", "b", "c"] ["b", "c", "a"]).devices.map DevEntry.name).Perm
        ["a", "b", "c"]) := by
  refine ⟨by decide, ?_⟩
  have h := checkBatch_aggregation_invariant
    (fun d => if d = "b" then .exc "timeout" else .ok (d = "a"))
    ["a", "b", "c"] ["b", "c", "a"] (by decide)
  simpa using h

/-- C4: a single device's failure is caught at the per-device boundary:
the batch result still reports overall success, every input device gets
exactly one per-device entry, a device whose future raised is recorded
with the not-in-sync status, and a transport failure inside
`check_device_sync` becomes a not-in-sync outcome carrying the error
detail instead of an exception. -/
theorem checkBatch_per_device_isolation
    (outcome : String → DevOutcome) (devices order : List String)
    (hperm : order.Perm devices) :
    (_check_devices_sync outcome devices order).success = true ∧
    (_check_devices_sync outcome devices order).devices.length = devices.length ∧
    (∀ d msg, d ∈ devices → outcome d = .exc msg →
      (⟨d, false⟩ : DevEntry) ∈ (_check_devices_sync outcome devices order).devices) ∧
    (∀ msg, check_device_sync (false, msg) = { in_sync := false, error := some msg }) := by
  have h := collect_fold_spec outcome order ([], 0, 0)
  have hentries : (_check_devices_sync outcome devices order).devices
      = order.map (entryFor outcome) := by
    show (order.foldl (collectStep outcome) ([], 0, 0)).1 = _
    rw [h.1]; simp
  refine ⟨rfl, ?_, ?_, fun _ => rfl⟩
  · rw [hentries]
    simpa using hperm.length_eq
  · intro d msg hd hexc
    rw [hentries]
    have hdo : d ∈ order := (hperm.mem_iff).2 hd
    have : entryFor outcome d = ⟨d, false⟩ := by simp [entryFor, hexc]
    exact this ▸ List.mem_map_of_mem (entryFor outcome) hdo

/-- Witness for `checkBatch_per_device_isolation`: a two-device batch in
which one worker raises, completing in reversed order. -/
theorem checkBatch_per_device_isolation_witness :
    (["y", "x"].Perm ["x", "y"]) ∧
    ((_check_devices_sync
        (fun d => if d = "y" then .exc "boom" else .ok true)
        ["x", "y"] ["y", "x"]).success = true ∧
     (_check_devices_sync
        (fun d => if d = "y" then .exc "boom" else .ok true)
        ["x", "y"] ["y", "x"]).devices.length = 2 ∧
     (⟨"y", false⟩ : DevEntry) ∈ (_check_devices_sync
        (fun d => if d = "y" then .exc "boom" else .ok true)
        ["x", "y"] ["y", "x"]).devices ∧
     check_device_sync (false, "timeout")
        = { in_sync := false, error := some "timeout" }) := by
  refine ⟨by decide, ?_⟩
  have h := checkBatch_per_device_isolation
    (fun d => if d = "y" then .exc "boom" else .ok true)
    ["x", "y"] ["y", "x"] (by decide)
  exact ⟨h.1, by simpa using h.2.1,
    h.2.2.1 "y" "boom" (by decide) (by decide), h.2.2.2 "timeout"⟩

/-- C5: `check_selected_devices_sync` with an empty device-name list is a
defined failure with the message `No devices selected` and all-zero
statistics, for any per-device outcomes and any completion order. -/
theorem checkSelected_empty_selection
    (outcome : String → DevOutcome) (order : List String) :
    check_selected_devices_sync outcome [] order =
      { success := false
        message := "No devices selected"
        stats := ⟨0, 0, 0⟩
        devices := [] } := rfl

/-- C2 counterexample: the raw response carrying `"result":"weird-value"`
is classified as in-sync by `check_device_sync` (`in_sync = true`), whereas
the claim requires any parsed value other than `in-sync` / `locked` /
`out-of-sync` to be classified not-in-sync. -/
theorem checkDeviceSync_weird_value_in_sync :
    (check_device_sync
      (true, "\x7b\"tailf-ncs:output\":\x7b\"result\":\"weird-value\"\x7d\x7d")).in_sync
      = true := by decide

/-- C2 amended: the classifier treats `out-of-sync` as the only parsed
value meaning not-in-sync — `in-sync`, `locked` and every other parsed
value count as in-sync — while a response from which no `result` value can
be parsed defaults to not-in-sync; the four reference raw responses yield
in-sync, in-sync, not-in-sync and in-sync respectively. -/
theorem checkDeviceSync_classification :
    (∀ data status, parseSyncResult data = some status →
      (check_device_sync (true, data)).in_sync = (status != "out-of-sync")) ∧
    (∀ data, parseSyncResult data = none →
      (check_device_sync (true, data)).in_sync = false) ∧
    (check_device_sync
      (true, "\x7b\"tailf-ncs:output\":\x7b\"result\":\"in-sync\"\x7d\x7d")).in_sync = true ∧
    (check_device_sync
      (true, "\x7b\"tailf-ncs:output\":\x7b\"result\":\"locked\"\x7d\x7d")).in_sync = true ∧
    (check_device_sync
      (true, "\x7b\"tailf-ncs:output\":\x7b\"result\":\"out-of-sync\"\x7d\x7d")).in_sync = false ∧
    (check_device_sync
      (true, "\x7b\"tailf-ncs:output\":\x7b\"result\":\"weird-value\"\x7d\x7d")).in_sync = true := by
  refine ⟨?_, ?_, by decide, by decide, by decide, by decide⟩
  · intro data status hp
    simp [check_device_sync, hp]
  · intro data hp
    simp [check_device_sync, hp]

/-- Witness for `checkDeviceSync_classification`: its universally
quantified conjuncts applied to concrete responses. -/
theorem checkDeviceSync_classification_witness :
    ((check_device_sync (true, "\x7b\"result\":\"locked\"\x7d")).in_sync
      = ("locked" != "out-of-sync")) ∧
    ((check_device_sync (true, "no result field here")).in_sync = false) := by
  refine ⟨?_, ?_⟩
  · exact checkDeviceSync_classification.1 "\x7b\"result\":\"locked\"\x7d" "locked" (by decide)
  · exact checkDeviceSync_classification.2.1 "no result field here" (by decide)

/-! ### Lemmas about the tunnel table -/

lemma lookupT_eraseT (t : Table) (k : String) : lookupT (eraseT t k) k = none := by
  induction t with
  | nil => rfl
  | cons p rest ih =>
    by_cases h : p.1 = k
    · simp only [eraseT, lookupT, List.filter_cons] at ih ⊢
      simp [h]
    · simp only [eraseT, lookupT, List.filter_cons] at ih ⊢
      simp [h]

lemma lookupT_insertT (t : Table) (k : String) (v : TunnelRec) :
    lookupT (insertT t k v) k = some v := by
  have h1 : (eraseT t k).find? (fun p => p.1 == k) = none := by
    have h := lookupT_eraseT t k
    unfold lookupT at h
    cases hf : (eraseT t k).find? (fun p => p.1 == k) with
    | none => rfl
    | some x => rw [hf] at h; simp at h
  unfold insertT lookupT
  rw [List.find?_append, h1]
  simp

lemma countKey_append (a b : Table) (k : String) :
    countKey (a ++ b) k = countKey a k + countKey b k := by
  simp [countKey, List.filter_append]

lemma sweepTunnels_append (env : Env) (a b : Table) :
    sweepTunnels env (a ++ b) = sweepTunnels env a ++ sweepTunnels env b := by
  simp [sweepTunnels]

lemma countKey_sweep_eraseT (env : Env) (t : Table) (k : String) :
    countKey (sweepTunnels env (eraseT t k)) k = 0 := by
  induction t with
  | nil => rfl
  | cons p rest ih =>
    by_cases h : p.1 = k
    · simpa [eraseT, sweepTunnels, countKey, List.filter_cons, h] using ih
    · by_cases hr : _is_process_running env p.2.pid
      · simpa [eraseT, sweepTunnels, countKey, List.filter_cons, h, hr] using ih
      · simpa [eraseT, sweepTunnels, countKey, List.filter_cons, h, hr] using ih

/-! ### C6: a record with untracked pid `-1` and the staleness sweep -/

/-- C6 (exhibiting the divergence): a successful `jump01` connect whose
ssh process could not be identified stores the record with pid `-1`
(first two conjuncts, at a concrete environment); but for every
environment, `get_active_tunnels` drops such a record in its staleness
sweep — `_is_process_running` is false for every pid `<= 0` — and returns
no active tunnel for it, where the claim requires the record to be
retained. -/
theorem untracked_pid_record_dropped :
    (create_tunnel envUntracked [] "A" 9001 "jump01").2.1.success = true ∧
    (create_tunnel envUntracked [] "A" 9001 "jump01").1 = [("A", ⟨-1, 9001⟩)] ∧
    ∀ (env : Env) (inst : String) (port : Nat),
      get_active_tunnels env [(inst, ⟨-1, port⟩)] = ([], []) := by
  refine ⟨by decide, by decide, ?_⟩
  intro env inst port
  simp [get_active_tunnels, sweepTunnels, _is_process_running]

/-! ### C7: port reclamation and the absent conflict failure -/

/-- C7 counterexample: with the requested port held by the unrelated
non-ssh process 555, `create_tunnel` does not kill it — but it also does
not fail with any `ResourceConflictError` (no such error exists in the
code): it proceeds to launch the forward and here returns success. -/
theorem unrelated_process_no_conflict_error :
    Effect.kill 555 ∉ (create_tunnel envConflict [] "A" 9001 "devm").2.2 ∧
    (create_tunnel envConflict [] "A" 9001 "devm").2.1.success = true ∧
    Effect.launch ∈ (create_tunnel envConflict [] "A" 9001 "devm").2.2 := by
  refine ⟨by decide, by decide, by decide⟩

/-! ### C9: `close_tunnel` -/

/-- C9: closing with no record is a reported not-found failure; closing
with a record terminates the tracked process when the pid is positive and
otherwise reclaims by scanning the bound port, and in every case —
including the one where termination raises — the record is removed from
the tunnel table. -/
theorem closeTunnel_not_found_and_unconditional_removal
    (env : Env) (t : Table) (inst : String) :
    (lookupT t inst = none →
      close_tunnel env t inst =
        (t, { success := false, message := "No active tunnel found for " ++ inst }, [])) ∧
    (∀ rec, lookupT t inst = some rec →
      lookupT (close_tunnel env t inst).1 inst = none ∧
      (rec.pid > 0 → (close_tunnel env t inst).2.2 = [Effect.kill rec.pid]) ∧
      (rec.pid ≤ 0 → (close_tunnel env t inst).2.2 = (_kill_tunnel_on_port env).2)) := by
  constructor
  · intro h
    simp [close_tunnel, h]
  · intro rec h
    refine ⟨?_, ?_, ?_⟩
    · cases hk : env.killRaises <;>
        simp [close_tunnel, h, hk, lookupT_eraseT]
    · intro hp
      cases hk : env.killRaises <;>
        simp [close_tunnel, h, hk, hp, killProcessActs]
    · intro hp
      have hp' : ¬ rec.pid > 0 := by omega
      cases hk : env.killRaises <;>
        simp [close_tunnel, h, hk, hp', killProcessActs]

/-- Witness for `closeTunnel_not_found_and_unconditional_removal`: a
concrete empty table (not-found case) and a concrete one-record table
whose termination raises, after which the record is gone. -/
theorem closeTunnel_witness :
    (lookupT ([] : Table) "A" = none ∧
      close_tunnel envBase [] "A" =
        ([], { success := false, message := "No active tunnel found for A" }, [])) ∧
    (lookupT [("A", ⟨42, 9001⟩)] "A" = some ⟨42, 9001⟩ ∧
      lookupT (close_tunnel { envBase with killRaises := true }
        [("A", ⟨42, 9001⟩)] "A").1 "A" = none) := by
  refine ⟨⟨by decide, ?_⟩, ⟨by decide, ?_⟩⟩
  · have h := (closeTunnel_not_found_and_unconditional_removal envBase [] "A").1 (by decide)
    simpa using h
  · exact ((closeTunnel_not_found_and_unconditional_removal
      { envBase with killRaises := true } [("A", ⟨42, 9001⟩)] "A").2
      ⟨42, 9001⟩ (by decide)).1

/-! ### C10: `get_active_tunnels` returns a copy -/

/-- C10: `get_active_tunnels` returns a reference to a fresh copy of the
(swept) record table, distinct from the manager-owned reference; however
the returned dict is subsequently mutated — any table value whatsoever may
be written through it — the manager-owned cell still holds exactly the
swept table, so entries cannot be created or deleted through the returned
value. -/
theorem listActive_returns_copy
    (env : Env) (h : Heap) (r : Nat) (hr : r < h.cells.length) :
    (get_active_tunnels_heap env h r).2 ≠ r ∧
    ∀ tb : Table,
      readH (writeH (get_active_tunnels_heap env h r).1
          (get_active_tunnels_heap env h r).2 tb) r
        = sweepTunnels env (readH h r) := by
  have hlen : ((h.cells.set r (sweepTunnels env (readH h r)))).length
      = h.cells.length := by simp
  constructor
  · show (h.cells.set r (sweepTunnels env (readH h r))).length ≠ r
    omega
  · intro tb
    show ((((h.cells.set r (sweepTunnels env (readH h r))) ++
        [sweepTunnels env (readH h r)]).set
          (h.cells.set r (sweepTunnels env (readH h r))).length tb).getD r [])
      = sweepTunnels env (readH h r)
    rw [List.getD_eq_getElem?_getD]
    rw [List.getElem?_set_ne (by omega)]
    rw [List.getElem?_append_left (by omega)]
    rw [List.getElem?_set_self]
    simp [List.getElem?_eq_getElem, hr]
    exact hr

/-- Witness for `listActive_returns_copy`: a one-cell heap whose single
table is emptied through the returned reference while the manager cell
keeps the swept table. -/
theorem listActive_returns_copy_witness :
    0 < (Heap.mk [[("A", ⟨3, 1⟩)]]).cells.length ∧
    readH (writeH (get_active_tunnels_heap envBase (Heap.mk [[("A", ⟨3, 1⟩)]]) 0).1
        (get_active_tunnels_heap envBase (Heap.mk [[("A", ⟨3, 1⟩)]]) 0).2 []) 0
      = sweepTunnels envBase (readH (Heap.mk [[("A", ⟨3, 1⟩)]]) 0) :=
  ⟨by decide, (listActive_returns_copy envBase (Heap.mk [[("A", ⟨3, 1⟩)]]) 0 (by decide)).2 []⟩

/-! ### Lemmas about the launch and verification paths -/

lemma verify_success_iff (env : Env) (t : Table) (inst : String)
    (port : Nat) (pid : Int) :
    ((_verify_and_finalize_tunnel env t inst port pid).2.1.success = true) ↔
      ((List.range maxAttempts).find? (fun i => env.verifyObs i)).isSome := by
  unfold _verify_and_finalize_tunnel
  cases h : (List.range maxAttempts).find? (fun i => env.verifyObs i) <;> simp [h]

lemma verify_state_of_success (env : Env) (t : Table) (inst : String)
    (port : Nat) (pid : Int) :
    (_verify_and_finalize_tunnel env t inst port pid).2.1.success = true →
    (_verify_and_finalize_tunnel env t inst port pid).1 = insertT t inst ⟨pid, port⟩ ∧
    (_verify_and_finalize_tunnel env t inst port pid).2.1.pid = some pid := by
  unfold _verify_and_finalize_tunnel
  cases h : (List.range maxAttempts).find? (fun i => env.verifyObs i) <;> simp [h]

lemma find_range_isSome_iff (env : Env) :
    ((List.range maxAttempts).find? (fun i => env.verifyObs i)).isSome ↔
      ∃ i, i < maxAttempts ∧ env.verifyObs i = true := by
  rw [List.find?_isSome]
  constructor
  · rintro ⟨i, hi, hp⟩
    exact ⟨i, List.mem_range.mp hi, hp⟩
  · rintro ⟨i, hi, hp⟩
    exact ⟨i, List.mem_range.mpr hi, hp⟩

/-- Every fresh (non-idempotent) establishment that reports success went
through the verification loop and saw the port bound, and its state is the
table with the new record inserted. -/
lemma fresh_success (env : Env) (t : Table) (inst : String)
    (port : Nat) (host : String) :
    (create_tunnel_fresh env t inst port host).2.1.success = true →
    ((List.range maxAttempts).find? (fun i => env.verifyObs i)).isSome ∧
    ∃ p, (create_tunnel_fresh env t inst port host).1 = insertT t inst ⟨p, port⟩ ∧
         (create_tunnel_fresh env t inst port host).2.1.pid = some p := by
  unfold create_tunnel_fresh
  by_cases hj : host = "jump01"
  · rw [if_pos hj]
    cases hcm : env.controlMasterOk
    · simp
    · simp only [if_pos rfl]
      unfold _create_tunnel_with_f_flag
      cases hro : env.runOutcome with
      | timeout => simp
      | raised m => simp
      | exited code err =>
        by_cases hc : code = 0
        · simp only [hc, if_pos rfl, reduceIte]
          intro hs
          refine ⟨(verify_success_iff env t inst port _).mp hs, ?_⟩
          have h2 := verify_state_of_success env t inst port _ hs
          exact ⟨_, by simpa using h2.1, by simpa using h2.2⟩
        · cases err with
          | permissionDenied => simp [hc]
          | otherErr m => simp [hc]
          | tputOnly =>
            simp only [if_neg hc]
            intro hs
            refine ⟨(verify_success_iff env t inst port _).mp hs, ?_⟩
            have h2 := verify_state_of_success env t inst port _ hs
            exact ⟨_, by simpa using h2.1, by simpa using h2.2⟩
  · rw [if_neg hj]
    unfold _create_tunnel_with_popen
    cases hpl : env.popenLaunch with
    | error m => simp
    | ok p =>
      intro hs
      refine ⟨(verify_success_iff env t inst port p).mp hs, ?_⟩
      have h2 := verify_state_of_success env t inst port p hs
      exact ⟨p, by simpa using h2.1, by simpa using h2.2⟩

lemma verify_failure (env : Env) (t : Table) (inst : String)
    (port : Nat) (pid : Int)
    (hnone : ∀ i, i < maxAttempts → env.verifyObs i = false) :
    _verify_and_finalize_tunnel env t inst port pid =
      (t,
       { success := false
         message := "Tunnel failed to bind to local port. Check SSH configuration and network connectivity." },
       killProcessActs pid) := by
  have h : (List.range maxAttempts).find? (fun i => env.verifyObs i) = none :=
    List.find?_eq_none.mpr (fun i hi => by simp [hnone i (List.mem_range.mp hi)])
  unfold _verify_and_finalize_tunnel
  rw [h]

lemma create_launch_success_verified (env : Env) (t : Table) (inst : String)
    (port : Nat) (host : String) :
    Effect.launch ∈ (create_tunnel env t inst port host).2.2 →
    (create_tunnel env t inst port host).2.1.success = true →
    ((List.range maxAttempts).find? (fun i => env.verifyObs i)).isSome := by
  intro hlaunch hs
  unfold create_tunnel at hlaunch hs
  cases hl : lookupT t inst with
  | none =>
    rw [hl] at hs
    exact (fresh_success env t inst port host hs).1
  | some rec =>
    rw [hl] at hlaunch hs
    by_cases hr : _is_process_running env rec.pid = true
    · by_cases hm : (rec.local_port == port && env.portCheckIdem) = true
      · simp [hr, hm] at hlaunch
      · simp only [hr, hm, if_true, if_false, reduceIte] at hs
        exact (fresh_success env (eraseT t inst) inst port host hs).1
    · simp only [hr, if_false, reduceIte] at hs
      exact (fresh_success env (eraseT t inst) inst port host hs).1

lemma create_success_state (env : Env) (t : Table) (inst : String)
    (port : Nat) (host : String) :
    lookupT t inst = none →
    (create_tunnel env t inst port host).2.1.success = true →
    ∃ p, (create_tunnel env t inst port host).1 = insertT t inst ⟨p, port⟩ ∧
         (create_tunnel env t inst port host).2.1.pid = some p := by
  intro hl hs
  have he : create_tunnel env t inst port host
      = create_tunnel_fresh env t inst port host := by
    unfold create_tunnel
    rw [hl]
  rw [he] at hs ⊢
  exact (fresh_success env t inst port host hs).2

/-! ### C8: mandatory port verification -/

/-- C8: success of the verification step is equivalent to some polling
attempt (out of the bounded `maxAttempts = 15`, one per second) observing
the port bound; when the port is never observed bound the step fails,
leaves the table unchanged, and terminates the launched process when one
was identified; any `create_tunnel` run that launched a forward and
reports success had a bound observation; and a `-f` launch whose command
exited with code 0 still fails when the port is never observed bound. -/
theorem connect_success_requires_bound_port :
    (∀ (env : Env) (t : Table) (inst : String) (port : Nat) (pid : Int),
      ((_verify_and_finalize_tunnel env t inst port pid).2.1.success = true) ↔
        ∃ i, i < maxAttempts ∧ env.verifyObs i = true) ∧
    (∀ (env : Env) (t : Table) (inst : String) (port : Nat) (pid : Int),
      (∀ i, i < maxAttempts → env.verifyObs i = false) →
      (_verify_and_finalize_tunnel env t inst port pid).2.1.success = false ∧
      (pid > 0 → (_verify_and_finalize_tunnel env t inst port pid).2.2 = [Effect.kill pid]) ∧
      (_verify_and_finalize_tunnel env t inst port pid).1 = t) ∧
    (∀ (env : Env) (t : Table) (inst : String) (port : Nat) (host : String),
      Effect.launch ∈ (create_tunnel env t inst port host).2.2 →
      (create_tunnel env t inst port host).2.1.success = true →
      ∃ i, i < maxAttempts ∧ env.verifyObs i = true) ∧
    (∀ (env : Env) (t : Table) (inst : String) (port : Nat) (err : ErrOut),
      env.runOutcome = RunOutcome.exited 0 err →
      (∀ i, i < maxAttempts → env.verifyObs i = false) →
      (_create_tunnel_with_f_flag env t inst port "jump01").2.1.success = false) := by
  refine ⟨?_, ?_, ?_, ?_⟩
  · intro env t inst port pid
    rw [verify_success_iff]
    exact find_range_isSome_iff env
  · intro env t inst port pid hnone
    rw [verify_failure env t inst port pid hnone]
    refine ⟨rfl, ?_, rfl⟩
    intro hp
    simp [killProcessActs, hp]
  · intro env t inst port host hlaunch hs
    have h := create_launch_success_verified env t inst port host hlaunch hs
    exact (find_range_isSome_iff env).mp h
  · intro env t inst port err hro hnone
    unfold _create_tunnel_with_f_flag
    rw [hro]
    simp only [if_pos rfl, reduceIte]
    rw [verify_failure env t inst port _ hnone]

/-- Witness for `connect_success_requires_bound_port`: with the port never
observed bound, a `-f` launch that exited 0 with identified pid 42 fails
and kills the process; with the port observed bound at once, a `Popen`
connect succeeds. -/
theorem connect_success_requires_bound_port_witness :
    ((∀ i, i < maxAttempts →
        ({ envBase with verifyObs := fun _ => false } : Env).verifyObs i = false) ∧
      (_verify_and_finalize_tunnel { envBase with verifyObs := fun _ => false }
        [] "A" 9001 42).2.1.success = false ∧
      (_verify_and_finalize_tunnel { envBase with verifyObs := fun _ => false }
        [] "A" 9001 42).2.2 = [Effect.kill 42]) ∧
    (Effect.launch ∈ (create_tunnel envBase [] "A" 9001 "devm").2.2 ∧
      (create_tunnel envBase [] "A" 9001 "devm").2.1.success = true ∧
      ∃ i, i < maxAttempts ∧ envBase.verifyObs i = true) := by
  constructor
  · have h := connect_success_requires_bound_port.2.1
      { envBase with verifyObs := fun _ => false } [] "A" 9001 42
      (fun i _ => rfl)
    exact ⟨fun i _ => rfl, h.1, h.2.1 (by decide)⟩
  · refine ⟨by decide, by decide, ?_⟩
    exact connect_success_requires_bound_port.2.2.1 envBase [] "A" 9001 "devm"
      (by decide) (by decide)

/-! ### C1: idempotent connect -/

/-- C1: if a record exists whose process is alive, whose stored port
equals the requested port and whose port is observed bound, `create_tunnel`
returns success immediately, changes nothing and launches nothing; hence a
second connect performed after a successful first one (whose stored pid is
positive and still alive, with the port still observed bound) succeeds
without launching and leaves exactly one record for the instance in the
table returned by `get_active_tunnels`. -/
theorem connect_idempotent :
    (∀ (env : Env) (t : Table) (inst : String) (port : Nat) (host : String)
        (rec : TunnelRec),
      lookupT t inst = some rec →
      _is_process_running env rec.pid = true →
      rec.local_port = port →
      env.portCheckIdem = true →
      create_tunnel env t inst port host =
        (t,
         { success := true
           message := "Tunnel to " ++ inst ++ " already active"
           pid := some rec.pid
           local_port := some rec.local_port },
         [])) ∧
    (∀ (env1 env2 env3 : Env) (t : Table) (inst : String) (port : Nat)
        (host : String) (p : Int),
      lookupT t inst = none →
      (create_tunnel env1 t inst port host).2.1.success = true →
      (create_tunnel env1 t inst port host).2.1.pid = some p →
      p > 0 → env2.pidAlive p = true → env2.portCheckIdem = true →
      env3.pidAlive p = true →
      (create_tunnel env2 (create_tunnel env1 t inst port host).1 inst port host).2.1.success
          = true ∧
      (create_tunnel env2 (create_tunnel env1 t inst port host).1 inst port host).1
          = (create_tunnel env1 t inst port host).1 ∧
      Effect.launch ∉
        (create_tunnel env2 (create_tunnel env1 t inst port host).1 inst port host).2.2 ∧
      countKey (get_active_tunnels env3 (create_tunnel env1 t inst port host).1).2 inst
          = 1) := by
  have idem : ∀ (env : Env) (t : Table) (inst : String) (port : Nat)
      (host : String) (rec : TunnelRec),
      lookupT t inst = some rec →
      _is_process_running env rec.pid = true →
      rec.local_port = port →
      env.portCheckIdem = true →
      create_tunnel env t inst port host =
        (t,
         { success := true
           message := "Tunnel to " ++ inst ++ " already active"
           pid := some rec.pid
           local_port := some rec.local_port },
         []) := by
    intro env t inst port host rec hl hr hm hb
    unfold create_tunnel
    rw [hl]
    have hcond : (rec.local_port == port && env.portCheckIdem) = true := by
      simp [hm, hb]
    simp [hr, hcond]
  constructor
  · exact idem
  · intro env1 env2 env3 t inst port host p hl hs hp hppos h2a h2b h3a
    obtain ⟨q, hstate, hqpid⟩ := create_success_state env1 t inst port host hl hs
    have hq : q = p := by
      rw [hqpid] at hp
      exact Option.some.inj hp
    subst hq
    have hlook : lookupT (create_tunnel env1 t inst port host).1 inst
        = some ⟨q, port⟩ := by
      rw [hstate]
      exact lookupT_insertT t inst ⟨q, port⟩
    have hrun2 : _is_process_running env2 q = true := by
      unfold _is_process_running
      rw [if_neg (by omega)]
      exact h2a
    have hsecond := idem env2 (create_tunnel env1 t inst port host).1 inst port host
      ⟨q, port⟩ hlook hrun2 rfl h2b
    refine ⟨by rw [hsecond], by rw [hsecond], by rw [hsecond]; simp, ?_⟩
    have hrun3 : _is_process_running env3 q = true := by
      unfold _is_process_running
      rw [if_neg (by omega)]
      exact h3a
    show countKey (sweepTunnels env3 (create_tunnel env1 t inst port host).1) inst = 1
    rw [hstate]
    unfold insertT
    rw [sweepTunnels_append, countKey_append, countKey_sweep_eraseT]
    simp [sweepTunnels, countKey, hrun3]

/-- Witness for `connect_idempotent`: instance `A`, local port 9001, a
first connect from the empty table in `envBase` (which stores pid 42),
then a second connect and the staleness sweep under the same environment. -/
theorem connect_idempotent_witness :
    (lookupT [("A", ⟨42, 9001⟩)] "A" = some ⟨42, 9001⟩ ∧
      create_tunnel envBase [("A", ⟨42, 9001⟩)] "A" 9001 "devm" =
        ([("A", ⟨42, 9001⟩)],
         { success := true
           message := "Tunnel to A already active"
           pid := some 42
           local_port := some 9001 },
         [])) ∧
    (lookupT ([] : Table) "A" = none ∧
      (create_tunnel envBase (create_tunnel envBase [] "A" 9001 "devm").1
          "A" 9001 "devm").2.1.success = true ∧
      countKey (get_active_tunnels envBase (create_tunnel envBase [] "A" 9001 "devm").1).2 "A"
          = 1) := by
  constructor
  · exact ⟨by decide,
      connect_idempotent.1 envBase [("A", ⟨42, 9001⟩)] "A" 9001 "devm"
        ⟨42, 9001⟩ (by decide) (by decide) rfl rfl⟩
  · have h := connect_idempotent.2 envBase envBase envBase [] "A" 9001 "devm" 42
      (by decide) (by decide) (by decide) (by decide) rfl rfl rfl
    exact ⟨by decide, h.1, h.2.2.2⟩

/-! ### C7 (amended): what reclamation kills, and what follows conflict -/

lemma killProcessActs_mem (pid : Int) (a : Effect) :
    a ∈ killProcessActs pid → a = Effect.kill pid := by
  unfold killProcessActs
  split <;> simp

lemma verify_acts (env : Env) (t : Table) (inst : String)
    (port : Nat) (pid : Int) :
    (_verify_and_finalize_tunnel env t inst port pid).2.2 = [] ∨
    (_verify_and_finalize_tunnel env t inst port pid).2.2 = killProcessActs pid := by
  unfold _verify_and_finalize_tunnel
  cases h : (List.range maxAttempts).find? (fun i => env.verifyObs i) <;> simp [h]

lemma fresh_acts_popen (env : Env) (t : Table) (inst : String)
    (port : Nat) (host : String) (p : Int)
    (hj : host ≠ "jump01") (hpl : env.popenLaunch = .ok p) :
    (create_tunnel_fresh env t inst port host).2.2 =
      (if env.portCheckAfterKill then
        if env.bindTestFails then
          (_kill_tunnel_on_port env).2 ++ (_kill_tunnel_on_port env).2
        else (_kill_tunnel_on_port env).2
       else (_kill_tunnel_on_port env).2)
      ++ (Effect.launch :: (_verify_and_finalize_tunnel env t inst port p).2.2) := by
  unfold create_tunnel_fresh _create_tunnel_with_popen
  rw [if_neg hj]
  simp only [hpl]

/-- C7 (amended): during reclamation of the requested local port, a bound
process is terminated only when its name marks it as an ssh process — a
kill of pid `q` recorded by `_kill_tunnel_on_port` always originates from
an ssh-named process bound to the port; and when the port is held only by
unrelated processes, `create_tunnel` does not fail with any conflict
error: it proceeds to launch the forward (the only kills it can ever
record besides reclamation are of the process it launched itself). -/
theorem reclamation_kills_only_ssh :
    (∀ (env : Env) (pid : Int),
      Effect.kill pid ∈ (_kill_tunnel_on_port env).2 →
      ∃ q ∈ env.portProcs, q.pid = pid ∧ q.nameHasSSH = true) ∧
    (∀ (env : Env) (t : Table) (inst : String) (port : Nat) (host : String)
        (p : Int),
      lookupT t inst = none → host ≠ "jump01" → env.popenLaunch = .ok p →
      Effect.launch ∈ (create_tunnel env t inst port host).2.2 ∧
      ∀ pid, Effect.kill pid ∈ (create_tunnel env t inst port host).2.2 →
        (∃ q ∈ env.portProcs, q.pid = pid ∧ q.nameHasSSH = true) ∨ pid = p) := by
  have hkill : ∀ (env : Env) (pid : Int),
      Effect.kill pid ∈ (_kill_tunnel_on_port env).2 →
      ∃ q ∈ env.portProcs, q.pid = pid ∧ q.nameHasSSH = true := by
    intro env pid h
    unfold _kill_tunnel_on_port at h
    simp only [List.mem_map, List.mem_filter] at h
    obtain ⟨q, ⟨hq, hssh⟩, heq⟩ := h
    exact ⟨q, hq, by injection heq, hssh⟩
  refine ⟨hkill, ?_⟩
  intro env t inst port host p hl hj hpl
  have he : create_tunnel env t inst port host
      = create_tunnel_fresh env t inst port host := by
    unfold create_tunnel
    rw [hl]
  rw [he, fresh_acts_popen env t inst port host p hj hpl]
  constructor
  · simp
  · intro pid hmem
    rw [List.mem_append] at hmem
    rcases hmem with hmem | hmem
    · left
      split at hmem
      · split at hmem
        · rcases List.mem_append.mp hmem with hmem | hmem
          · exact hkill env pid hmem
          · exact hkill env pid hmem
        · exact hkill env pid hmem
      · exact hkill env pid hmem
    · rcases List.mem_cons.mp hmem with hmem | hmem
      · exact absurd hmem (by simp)
      · rcases verify_acts env t inst port p with hv | hv
        · rw [hv] at hmem
          simp at hmem
        · rw [hv] at hmem
          right
          have := killProcessActs_mem p _ hmem
          injection this

/-- Witness for `reclamation_kills_only_ssh`: the port held by unrelated
pid 555 in `envConflict`; the connect proceeds to launch. -/
theorem reclamation_kills_only_ssh_witness :
    (lookupT ([] : Table) "A" = none ∧ "devm" ≠ "jump01" ∧
      envConflict.popenLaunch = Except.ok 42) ∧
    Effect.launch ∈ (create_tunnel envConflict [] "A" 9001 "devm").2.2 := by
  refine ⟨⟨by decide, by decide, rfl⟩, ?_⟩
  exact (reclamation_kills_only_ssh.2 envConflict [] "A" 9001 "devm" 42
    (by decide) (by decide) rfl).1
